import Mathlib

/-!
Verification of the QueueFile.swift binding (src/src/lib.rs) and the
durable FIFO queue engine it wraps.

The repository under verification is a thin uniffi binding around the
external queue-file engine crate: the binding declares the error enum
`QueueFileError`, the `From` translation of engine errors, a
mutex-wrapped `QueueFile` object, and forwards every method to the
engine.  The engine itself is not part of the repository's sources, so
its behaviour (add / add_n / peek / remove_n / clear / iterate / offset
cache) is modelled from the specification; the binding layer is
embedded directly from src/src/lib.rs.

Payloads are modelled as `List Nat` (byte sequences); byte-for-byte
equality is list equality.
-/

/-- Embedded from src/src/lib.rs lines 6-23: the binding's error enum
`QueueFileError`.  `IoError(String)` carries the display string of the
underlying I/O error; `UnsupportedVersion` carries the detected and
supported version numbers (u32 modelled as `Nat`). -/
inductive QueueFileError where
  | ioError (msg : String)
  | emptyQueue
  | elementTooBig
  | tooManyElements
  | corruptedFile (msg : String)
  | unsupportedVersion (detected supported : Nat)
  | lockError
deriving Repr, DecidableEq

/-- Embedded from src/src/lib.rs lines 25-37: the engine error type
`queue_file::Error` as revealed by the exhaustive `match` of the `From`
impl — five variants: `Io { source }` (modelled by the display string of
the source error, which is all the binding observes via
`source.to_string()`), `ElementTooBig`, `TooManyElements`,
`CorruptedFile { msg }` and `UnsupportedVersion { detected, supported }`. -/
inductive RustError where
  | io (source : String)
  | elementTooBig
  | tooManyElements
  | corruptedFile (msg : String)
  | unsupportedVersion (detected supported : Nat)
deriving Repr, DecidableEq

/-- Embedded from src/src/lib.rs lines 25-37: the
`From queue_file::Error for QueueFileError` conversion, arm by arm. -/
def fromEngineError : RustError → QueueFileError
  | .io source => .ioError source
  | .elementTooBig => .elementTooBig
  | .tooManyElements => .tooManyElements
  | .corruptedFile msg => .corruptedFile msg
  | .unsupportedVersion detected supported => .unsupportedVersion detected supported

/-- Embedded from src/src/lib.rs lines 39-44: the binding's offset-cache
policy enum (`None`, `Linear { offset }`, `Quadratic`). -/
inductive OffsetCachePolicy where
  | none
  | linear (offset : Nat)
  | quadratic
deriving Repr, DecidableEq

/-- Modelled from the spec: the format limits of the engine (the engine
crate is not under src/).  Spec section 4.3: an element whose payload
exceeds the maximum representable length for the active format is
rejected with `ElementTooBig`; section 4.4: an add that would push the
element count past the format's maximum is rejected with
`TooManyElements`.  The exact numeric limits are format constants not
pinned by the spec, so they are parameters of the model. -/
structure Limits where
  maxElemSize : Nat
  maxElemCount : Nat
deriving Repr, DecidableEq

/-- Modelled from the spec: size in bytes of the fixed file header
(spec section 3, "Header (fixed-size, file offset 0)"). -/
def HEADER_SIZE : Nat := 32

/-- Modelled from the spec: width in bytes of the length field that
precedes each element's payload (spec section 3, "Element Frame: a
length field followed by exactly that many payload bytes"). -/
def LENGTH_FIELD : Nat := 4

/-- Modelled from the spec: minimum baseline file length that `clear`
may shrink back toward (spec section 4.4, "may additionally shrink
`file_length` back toward a minimum baseline"). -/
def INITIAL_LENGTH : Nat := 4096

/-- Modelled from the spec: total bytes consumed by one element frame,
length-field width plus payload length (spec section 4.3). -/
def frameSize (p : List Nat) : Nat := LENGTH_FIELD + p.length

/-- Modelled from the spec: the doubling loop of the growth policy,
with explicit fuel so the recursion is structural; `fuel = target`
doublings always suffice since the length at least doubles each round
from a positive start. -/
def growToAux : Nat → Nat → Nat → Nat
  | 0, len, target => max len target
  | fuel + 1, len, target =>
    if target ≤ len then len
    else if len = 0 then target
    else growToAux fuel (2 * len) target

/-- Modelled from the spec: the growth policy for the ring file — at
least doubling the current length until the target fits (spec section
4.4 step 2, "new `file_length` is chosen by a doubling policy"). -/
def growTo (len target : Nat) : Nat :=
  growToAux target len target

/-- Modelled from the spec: the observable state of the engine (the
queue-file crate is not under src/).  `elements` is the live element
sequence, oldest first; `fileLength` the total allocated byte length;
the three configuration fields mirror `sync_writes`,
`overwrite_on_remove` and the offset-cache policy (spec sections 3-5). -/
structure EngineState where
  elements : List (List Nat)
  fileLength : Nat
  syncWrites : Bool
  overwriteOnRemove : Bool
  cachePolicy : OffsetCachePolicy
deriving Repr, DecidableEq

/-- Modelled from the spec: bytes of the file occupied by the header
plus the frames of the live elements (spec section 3 invariant
"file_length >= header_size + sum(frame_sizes of live elements)"). -/
def usedBytes (s : EngineState) : Nat :=
  HEADER_SIZE + (s.elements.map frameSize).sum

/-- Modelled from the spec: the canonical state of a freshly created
queue file with a requested initial capacity (spec section 6,
`open_with_capacity`): no elements, file length at least the header,
sync-writes on and overwrite-on-remove off by default, no offset cache. -/
def withCapacityE (capacity : Nat) : EngineState :=
  { elements := []
    fileLength := max capacity HEADER_SIZE
    syncWrites := true
    overwriteOnRemove := false
    cachePolicy := .none }

/-- Modelled from the spec: engine `add` (spec section 4.4).  Checks
`ElementTooBig` and `TooManyElements` before any byte is written (the
atomic check-then-write of step 4), grows the file by the doubling
policy if free space is insufficient, then appends the frame after the
newest element.  Errors are expressed after the binding's `From`
translation.  Returns the post-call engine state together with the
result; on error the state is unchanged. -/
def addE (L : Limits) (s : EngineState) (p : List Nat) :
    EngineState × Except QueueFileError Unit :=
  if L.maxElemSize < p.length then (s, .error .elementTooBig)
  else if L.maxElemCount < s.elements.length + 1 then (s, .error .tooManyElements)
  else
    ({ s with
        elements := s.elements ++ [p]
        fileLength := growTo s.fileLength (usedBytes s + frameSize p) },
      .ok ())

/-- Modelled from the spec: engine `add_n` (spec section 4.4), the batch
variant under a single header update — the whole batch is checked for
`ElementTooBig` and `TooManyElements` before any frame is written, so a
failure leaves the state unchanged; on success all payloads are
appended at once. -/
def addNE (L : Limits) (s : EngineState) (items : List (List Nat)) :
    EngineState × Except QueueFileError Unit :=
  if items.any (fun p => decide (L.maxElemSize < p.length)) then
    (s, .error .elementTooBig)
  else if L.maxElemCount < s.elements.length + items.length then
    (s, .error .tooManyElements)
  else
    ({ s with
        elements := s.elements ++ items
        fileLength := growTo s.fileLength (usedBytes s + (items.map frameSize).sum) },
      .ok ())

/-- Modelled from the spec: the set of logical indices at which the
offset cache records an anchor under each policy (spec section 4.5):
`none` always scans from the head (anchor 0); `linear offset` anchors at
the nearest prior multiple of `offset`; `quadratic` has entries becoming
sparser with distance from the head, modelled by the nearest prior
perfect square. -/
def anchorIdx : OffsetCachePolicy → Nat → Nat
  | .none, _ => 0
  | .linear offset, i => if offset = 0 then 0 else offset * (i / offset)
  | .quadratic, i => Nat.sqrt i * Nat.sqrt i

/-- Modelled from the spec: an indexed lookup through the offset cache
(spec section 4.5) — find the nearest prior anchor for the active
policy and scan forward from it to the requested logical index. -/
def lookupIdx (s : EngineState) (i : Nat) : Option (List Nat) :=
  (s.elements.drop (anchorIdx s.cachePolicy i))[i - anchorIdx s.cachePolicy i]?

/-- Modelled from the spec: engine `peek` (spec section 4.4) — an empty
queue yields the observable no-value result, not an error; otherwise
the oldest payload, looked up through the cache at logical index 0,
without removing it. -/
def peekE (s : EngineState) :
    EngineState × Except QueueFileError (Option (List Nat)) :=
  (s, .ok (lookupIdx s 0))

/-- Modelled from the spec: engine `iterate` (spec section 4.4) — the
finite sequence of payloads from oldest to newest, each read by an
indexed lookup through the cache, without mutating queue state. -/
def iterE (s : EngineState) :
    EngineState × Except QueueFileError (List (List Nat)) :=
  (s, .ok ((List.range s.elements.length).filterMap (lookupIdx s)))

/-- Modelled from the spec: engine `remove_n` (spec section 4.4) — fails
with `EmptyQueue` when `n` exceeds the element count (in particular any
positive removal from an empty queue), leaving the state unchanged;
otherwise drops the `n` oldest frames.  The file length is not changed
by removal (bytes are reclaimed only when the ring wraps over them). -/
def removeNE (s : EngineState) (n : Nat) :
    EngineState × Except QueueFileError Unit :=
  if s.elements.length < n then (s, .error .emptyQueue)
  else ({ s with elements := s.elements.drop n }, .ok ())

/-- Modelled from the spec: engine `clear` (spec section 4.4) —
equivalent to removing every element, and may shrink the file length
back toward the minimum baseline, never increasing it. -/
def clearE (s : EngineState) : EngineState × Except QueueFileError Unit :=
  ({ s with elements := [], fileLength := min s.fileLength INITIAL_LENGTH }, .ok ())

/-- Modelled from the spec: engine `size` — the live element count. -/
def sizeE (s : EngineState) : EngineState × Except QueueFileError Nat :=
  (s, .ok s.elements.length)

/-- Modelled from the spec: engine `is_empty`. -/
def isEmptyE (s : EngineState) : EngineState × Except QueueFileError Bool :=
  (s, .ok (s.elements.isEmpty))

/-- Modelled from the spec: engine `file_len` — total allocated bytes. -/
def fileLenE (s : EngineState) : EngineState × Except QueueFileError Nat :=
  (s, .ok s.fileLength)

/-- Modelled from the spec: engine `used_bytes`. -/
def usedBytesE (s : EngineState) : EngineState × Except QueueFileError Nat :=
  (s, .ok (usedBytes s))

/-- Modelled from the spec: engine `sync_all` — forces a flush; no
observable state change in the model. -/
def syncAllE (s : EngineState) : EngineState × Except QueueFileError Unit :=
  (s, .ok ())

/-- Modelled from the spec: engine `set_sync_writes`. -/
def setSyncWritesE (s : EngineState) (v : Bool) :
    EngineState × Except QueueFileError Unit :=
  ({ s with syncWrites := v }, .ok ())

/-- Modelled from the spec: engine `sync_writes`. -/
def syncWritesE (s : EngineState) : EngineState × Except QueueFileError Bool :=
  (s, .ok s.syncWrites)

/-- Modelled from the spec: engine `set_overwrite_on_remove`. -/
def setOverwriteOnRemoveE (s : EngineState) (v : Bool) :
    EngineState × Except QueueFileError Unit :=
  ({ s with overwriteOnRemove := v }, .ok ())

/-- Modelled from the spec: engine `overwrite_on_remove`. -/
def overwriteOnRemoveE (s : EngineState) : EngineState × Except QueueFileError Bool :=
  (s, .ok s.overwriteOnRemove)

/-- Modelled from the spec: engine `set_cache_offset_policy` (spec
section 4.5) — switching policy discards the cache and affects only the
policy field; the cache is derived, never authoritative. -/
def setCachePolicyE (s : EngineState) (p : OffsetCachePolicy) :
    EngineState × Except QueueFileError Unit :=
  ({ s with cachePolicy := p }, .ok ())

/-- Embedded from src/src/lib.rs lines 46-49: the binding object — a
mutex-wrapped engine.  `poisoned` models whether the internal
`Mutex` is poisoned, in which case `lock()` fails. -/
structure QueueFile where
  poisoned : Bool
  inner : EngineState
deriving Repr, DecidableEq

/-- Embedded from src/src/lib.rs: the common prologue of every binding
method, `self.inner.lock().map_err(|_| QueueFileError::LockError)?` —
on a poisoned mutex the method returns `LockError` without invoking any
engine operation; otherwise the engine operation runs on the inner
state. -/
def withLock {α : Type} (st : QueueFile)
    (f : EngineState → EngineState × Except QueueFileError α) :
    QueueFile × Except QueueFileError α :=
  if st.poisoned then (st, .error .lockError)
  else
    let r := f st.inner
    ({ st with inner := r.1 }, r.2)

/-- Embedded from src/src/lib.rs lines 61-67: the `with_capacity`
constructor (the I/O success path; file-system failures are outside the
model). -/
def QueueFile.with_capacity (capacity : Nat) : QueueFile :=
  { poisoned := false, inner := withCapacityE capacity }

/-- Embedded from src/src/lib.rs lines 69-74: `add`. -/
def QueueFile.add (L : Limits) (st : QueueFile) (data : List Nat) :
    QueueFile × Except QueueFileError Unit :=
  withLock st (fun s => addE L s data)

/-- Embedded from src/src/lib.rs lines 76-81: `add_multiple`. -/
def QueueFile.add_multiple (L : Limits) (st : QueueFile) (items : List (List Nat)) :
    QueueFile × Except QueueFileError Unit :=
  withLock st (fun s => addNE L s items)

/-- Embedded from src/src/lib.rs lines 83-90: `peek` (the engine's
optional boxed payload is copied to a vector; in the model both are the
payload itself). -/
def QueueFile.peek (st : QueueFile) :
    QueueFile × Except QueueFileError (Option (List Nat)) :=
  withLock st peekE

/-- Embedded from src/src/lib.rs lines 92-97: `remove`. -/
def QueueFile.remove (st : QueueFile) : QueueFile × Except QueueFileError Unit :=
  withLock st (fun s => removeNE s 1)

/-- Embedded from src/src/lib.rs lines 99-104: `remove_n` (the u32
argument is widened to usize; in the model both are `Nat`). -/
def QueueFile.remove_n (st : QueueFile) (n : Nat) :
    QueueFile × Except QueueFileError Unit :=
  withLock st (fun s => removeNE s n)

/-- Embedded from src/src/lib.rs lines 106-111: `clear`. -/
def QueueFile.clear (st : QueueFile) : QueueFile × Except QueueFileError Unit :=
  withLock st clearE

/-- Embedded from src/src/lib.rs lines 113-117: `is_empty`. -/
def QueueFile.is_empty (st : QueueFile) : QueueFile × Except QueueFileError Bool :=
  withLock st isEmptyE

/-- Embedded from src/src/lib.rs lines 119-123: `size` — the engine's
usize count is returned `as u32`, a truncation modelled by reduction
modulo 2^32. -/
def QueueFile.size (st : QueueFile) : QueueFile × Except QueueFileError Nat :=
  withLock st (fun s => (s, .ok (s.elements.length % 2 ^ 32)))

/-- Embedded from src/src/lib.rs lines 125-129: `file_len`. -/
def QueueFile.file_len (st : QueueFile) : QueueFile × Except QueueFileError Nat :=
  withLock st fileLenE

/-- Embedded from src/src/lib.rs lines 131-135: `used_bytes`. -/
def QueueFile.used_bytes (st : QueueFile) : QueueFile × Except QueueFileError Nat :=
  withLock st usedBytesE

/-- Embedded from src/src/lib.rs lines 137-142: `get_all`, collecting
the engine's iterator into a list of payload copies. -/
def QueueFile.get_all (st : QueueFile) :
    QueueFile × Except QueueFileError (List (List Nat)) :=
  withLock st iterE

/-- Embedded from src/src/lib.rs lines 144-149: `sync_all`. -/
def QueueFile.sync_all (st : QueueFile) : QueueFile × Except QueueFileError Unit :=
  withLock st syncAllE

/-- Embedded from src/src/lib.rs lines 151-156: `set_sync_writes`. -/
def QueueFile.set_sync_writes (st : QueueFile) (v : Bool) :
    QueueFile × Except QueueFileError Unit :=
  withLock st (fun s => setSyncWritesE s v)

/-- Embedded from src/src/lib.rs lines 158-162: `sync_writes`. -/
def QueueFile.sync_writes (st : QueueFile) : QueueFile × Except QueueFileError Bool :=
  withLock st syncWritesE

/-- Embedded from src/src/lib.rs lines 164-169: `set_overwrite_on_remove`. -/
def QueueFile.set_overwrite_on_remove (st : QueueFile) (v : Bool) :
    QueueFile × Except QueueFileError Unit :=
  withLock st (fun s => setOverwriteOnRemoveE s v)

/-- Embedded from src/src/lib.rs lines 171-175: `overwrite_on_remove`. -/
def QueueFile.overwrite_on_remove (st : QueueFile) :
    QueueFile × Except QueueFileError Bool :=
  withLock st overwriteOnRemoveE

/-- Embedded from src/src/lib.rs lines 177-192: `set_cache_offset_policy`
(the binding enum is converted to the engine's cache kind; in the model
both are `OffsetCachePolicy`). -/
def QueueFile.set_cache_offset_policy (st : QueueFile) (p : OffsetCachePolicy) :
    QueueFile × Except QueueFileError Unit :=
  withLock st (fun s => setCachePolicyE s p)

/-! ### Helper lemmas about the offset cache and iteration -/

/-- The anchor chosen by any cache policy never lies past the requested
index: the scan from the anchor is always a forward scan. -/
theorem anchorIdx_le (pol : OffsetCachePolicy) (i : Nat) : anchorIdx pol i ≤ i := by
  cases pol with
  | none => exact Nat.zero_le i
  | linear offset =>
    by_cases h : offset = 0
    · simp [anchorIdx, h]
    · simpa [anchorIdx, h, Nat.mul_comm] using Nat.div_mul_le_self i offset
  | quadratic => exact Nat.sqrt_le i

/-- An indexed lookup through the offset cache returns exactly the
element at the requested logical index, whatever the active policy. -/
theorem lookupIdx_eq (s : EngineState) (i : Nat) :
    lookupIdx s i = s.elements[i]? := by
  unfold lookupIdx
  rw [List.getElem?_drop]
  congr 1
  have h := anchorIdx_le s.cachePolicy i
  omega

/-- Reading every index of a list through its optional indexing
operator reproduces the list. -/
theorem filterMap_getElem_range (l : List (List Nat)) :
    (List.range l.length).filterMap (fun i => l[i]?) = l := by
  induction l with
  | nil => simp
  | cons a t ih =>
    rw [List.length_cons, List.range_succ_eq_map]
    simp only [List.filterMap_cons, List.getElem?_cons_zero, List.filterMap_map]
    have hc : ((fun i => (a :: t)[i]?) ∘ Nat.succ) = fun i => t[i]? := by
      funext i
      simp
    rw [hc, ih]

/-- The engine's iteration returns exactly the live element sequence,
oldest first, and leaves the state untouched. -/
theorem iterE_eq (s : EngineState) : iterE s = (s, .ok s.elements) := by
  unfold iterE
  have h : (List.range s.elements.length).filterMap (lookupIdx s) =
      (List.range s.elements.length).filterMap (fun i => s.elements[i]?) :=
    List.filterMap_congr (fun i _ => lookupIdx_eq s i)
  rw [h, filterMap_getElem_range]

/-- The engine's peek returns the oldest element when one exists and
the observable no-value result on an empty queue, without mutation. -/
theorem peekE_eq (s : EngineState) : peekE s = (s, .ok s.elements.head?) := by
  unfold peekE
  rw [lookupIdx_eq, ← List.head?_eq_getElem?]

/-- Success test for a binding result. -/
def isOk {α : Type} : Except QueueFileError α → Bool
  | .ok _ => true
  | .error _ => false

/-- Modelled from the spec: a client operation in an add/remove trace
(spec section 8, first testable property). -/
inductive Op where
  | add (p : List Nat)
  | remove
deriving Repr, DecidableEq

/-- One step of a client trace: apply the operation to the engine state
and count it when it succeeds.  The accumulator is (state, number of
successful adds, number of successful removes). -/
def stepOp (L : Limits) (acc : EngineState × Nat × Nat) : Op → EngineState × Nat × Nat
  | .add p =>
    ((addE L acc.1 p).1,
      acc.2.1 + (if isOk (addE L acc.1 p).2 then 1 else 0), acc.2.2)
  | .remove =>
    ((removeNE acc.1 1).1,
      acc.2.1, acc.2.2 + (if isOk (removeNE acc.1 1).2 then 1 else 0))

/-- Run a client trace left to right. -/
def runOps (L : Limits) (ops : List Op) (acc : EngineState × Nat × Nat) :
    EngineState × Nat × Nat :=
  ops.foldl (stepOp L) acc

/-- Add a list of payloads one by one, stopping at the first failure
(the repeated-`add` write phase of the round-trip property). -/
def addAll (L : Limits) (s : EngineState) :
    List (List Nat) → Except QueueFileError EngineState
  | [] => .ok s
  | p :: rest =>
    match addE L s p with
    | (s', .ok _) => addAll L s' rest
    | (_, .error e) => .error e

/-- Repeated peek-plus-remove consumption of the queue, reading at most
`fuel` elements: the read phase of the round-trip property. -/
def drain : Nat → EngineState → List (List Nat)
  | 0, _ => []
  | fuel + 1, s =>
    match (peekE s).2 with
    | .ok (some p) => p :: drain fuel (removeNE s 1).1
    | _ => []

/-! ### Case lemmas for the engine operations -/

/-- A successful engine add appends exactly the given payload at the
newest end and changes nothing else observable but the file length. -/
theorem addE_ok (L : Limits) (s : EngineState) (p : List Nat)
    (s1 : EngineState) (u : Unit) (h : addE L s p = (s1, .ok u)) :
    s1.elements = s.elements ++ [p] := by
  unfold addE at h
  split at h
  · simp only [Prod.mk.injEq] at h
    exact Except.noConfusion h.2
  · split at h
    · simp only [Prod.mk.injEq] at h
      exact Except.noConfusion h.2
    · simp only [Prod.mk.injEq] at h
      rw [← h.1]

/-- A failed engine add leaves the state unchanged. -/
theorem addE_error (L : Limits) (s : EngineState) (p : List Nat)
    (s1 : EngineState) (e : QueueFileError) (h : addE L s p = (s1, .error e)) :
    s1 = s := by
  unfold addE at h
  split at h
  · simp only [Prod.mk.injEq] at h
    exact h.1.symm
  · split at h
    · simp only [Prod.mk.injEq] at h
      exact h.1.symm
    · simp only [Prod.mk.injEq] at h
      exact Except.noConfusion h.2

/-- An engine add succeeds exactly when the payload fits the format and
the element count stays within the format limit. -/
theorem addE_ok_iff (L : Limits) (s : EngineState) (p : List Nat) :
    isOk (addE L s p).2 = true ↔
      p.length ≤ L.maxElemSize ∧ s.elements.length + 1 ≤ L.maxElemCount := by
  unfold addE
  split
  · rename_i hbig
    simp [isOk]
    omega
  · split
    · rename_i hcnt
      simp [isOk]
      omega
    · rename_i hbig hcnt
      simp [isOk]
      omega

/-- Removal of more elements than are live fails with the empty-queue
error and leaves the state unchanged. -/
theorem removeNE_overflow (s : EngineState) (n : Nat)
    (h : s.elements.length < n) : removeNE s n = (s, .error .emptyQueue) := by
  unfold removeNE
  rw [if_pos h]

/-- Removal of at most the live element count succeeds and drops
exactly the `n` oldest elements. -/
theorem removeNE_ok (s : EngineState) (n : Nat) (h : n ≤ s.elements.length) :
    removeNE s n = ({ s with elements := s.elements.drop n }, .ok ()) := by
  unfold removeNE
  rw [if_neg (by omega)]

/-- One trace step preserves the size accounting invariant: the element
count equals successful adds minus successful removes, removes never
exceed adds, and the count stays within the format limit. -/
theorem stepOp_invariant (L : Limits) (acc : EngineState × Nat × Nat) (op : Op)
    (h1 : acc.1.elements.length = acc.2.1 - acc.2.2)
    (h2 : acc.2.2 ≤ acc.2.1)
    (h3 : acc.1.elements.length ≤ L.maxElemCount) :
    (stepOp L acc op).1.elements.length = (stepOp L acc op).2.1 - (stepOp L acc op).2.2 ∧
    (stepOp L acc op).2.2 ≤ (stepOp L acc op).2.1 ∧
    (stepOp L acc op).1.elements.length ≤ L.maxElemCount := by
  cases op with
  | add p =>
    by_cases hbig : L.maxElemSize < p.length
    · have heq : stepOp L acc (Op.add p) = (acc.1, acc.2.1, acc.2.2) := by
        simp [stepOp, addE, hbig, isOk]
      rw [heq]
      exact ⟨h1, h2, h3⟩
    · by_cases hcnt : L.maxElemCount < acc.1.elements.length + 1
      · have heq : stepOp L acc (Op.add p) = (acc.1, acc.2.1, acc.2.2) := by
          simp [stepOp, addE, hbig, hcnt, isOk]
        rw [heq]
        exact ⟨h1, h2, h3⟩
      · have heq : stepOp L acc (Op.add p) =
            ((addE L acc.1 p).1, acc.2.1 + 1, acc.2.2) := by
          simp [stepOp, addE, hbig, hcnt, isOk]
        have hlen : ((addE L acc.1 p).1).elements.length =
            acc.1.elements.length + 1 := by
          simp [addE, hbig, hcnt]
        rw [heq]
        refine ⟨?_, ?_, ?_⟩
        · show ((addE L acc.1 p).1).elements.length = acc.2.1 + 1 - acc.2.2
          rw [hlen]
          omega
        · show acc.2.2 ≤ acc.2.1 + 1
          omega
        · show ((addE L acc.1 p).1).elements.length ≤ L.maxElemCount
          rw [hlen]
          omega
  | remove =>
    by_cases hlt : acc.1.elements.length < 1
    · have hremove := removeNE_overflow acc.1 1 hlt
      have heq : stepOp L acc Op.remove = (acc.1, acc.2.1, acc.2.2) := by
        simp [stepOp, hremove, isOk]
      rw [heq]
      exact ⟨h1, h2, h3⟩
    · have hremove := removeNE_ok acc.1 1 (by omega)
      have heq : stepOp L acc Op.remove =
          ({ acc.1 with elements := acc.1.elements.drop 1 }, acc.2.1, acc.2.2 + 1) := by
        simp [stepOp, hremove, isOk]
      have hlen : (acc.1.elements.drop 1).length = acc.1.elements.length - 1 := by
        simp
      rw [heq]
      refine ⟨?_, ?_, ?_⟩
      · show (acc.1.elements.drop 1).length = acc.2.1 - (acc.2.2 + 1)
        rw [hlen]
        omega
      · show acc.2.2 + 1 ≤ acc.2.1
        omega
      · show (acc.1.elements.drop 1).length ≤ L.maxElemCount
        rw [hlen]
        omega

/-- The size accounting invariant holds along any client trace. -/
theorem runOps_invariant (L : Limits) (ops : List Op) :
    ∀ acc : EngineState × Nat × Nat,
      acc.1.elements.length = acc.2.1 - acc.2.2 →
      acc.2.2 ≤ acc.2.1 →
      acc.1.elements.length ≤ L.maxElemCount →
      (runOps L ops acc).1.elements.length =
          (runOps L ops acc).2.1 - (runOps L ops acc).2.2 ∧
      (runOps L ops acc).2.2 ≤ (runOps L ops acc).2.1 ∧
      (runOps L ops acc).1.elements.length ≤ L.maxElemCount := by
  induction ops with
  | nil =>
    intro acc h1 h2 h3
    exact ⟨h1, h2, h3⟩
  | cons op rest ih =>
    intro acc h1 h2 h3
    have hs := stepOp_invariant L acc op h1 h2 h3
    exact ih (stepOp L acc op) hs.1 hs.2.1 hs.2.2

/-- A successful repeated add appends exactly the given payloads, in
order, to the live element sequence. -/
theorem addAll_elements (L : Limits) (ps : List (List Nat)) :
    ∀ s s' : EngineState, addAll L s ps = .ok s' →
      s'.elements = s.elements ++ ps := by
  induction ps with
  | nil =>
    intro s s' h
    unfold addAll at h
    cases h
    simp
  | cons p rest ih =>
    intro s s' h
    unfold addAll at h
    split at h
    · rename_i s1 u heq
      have h1 := addE_ok L s p s1 u heq
      have h2 := ih s1 s' h
      rw [h2, h1, List.append_assoc]
      rfl
    · exact Except.noConfusion h

/-- Repeated peek-plus-remove with fuel equal to the element count
returns exactly the live element sequence, oldest first. -/
theorem drain_eq (l : List (List Nat)) :
    ∀ s : EngineState, s.elements = l → drain l.length s = l := by
  induction l with
  | nil =>
    intro s h
    rfl
  | cons p t ih =>
    intro s h
    have hp : (peekE s).2 = .ok (some p) := by
      rw [peekE_eq, h]
      rfl
    have hr : (removeNE s 1).1 = { s with elements := t } := by
      rw [removeNE_ok s 1 (by rw [h]; simp)]
      simp [h]
    show drain (t.length + 1) s = p :: t
    unfold drain
    rw [hp, hr]
    exact congrArg (p :: ·) (ih _ rfl)

/-! ### Lemmas about the binding layer -/

/-- With a healthy mutex, a binding method simply runs the engine
operation on the protected state. -/
theorem withLock_not_poisoned (st : QueueFile) (h : st.poisoned = false)
    {α : Type} (f : EngineState → EngineState × Except QueueFileError α) :
    withLock st f = ({ st with inner := (f st.inner).1 }, (f st.inner).2) := by
  unfold withLock
  rw [h]
  rfl

/-- With a healthy mutex, the result component of a binding method is
the engine operation's result. -/
theorem withLock_snd (st : QueueFile) (h : st.poisoned = false)
    {α : Type} (f : EngineState → EngineState × Except QueueFileError α) :
    (withLock st f).2 = (f st.inner).2 := by
  rw [withLock_not_poisoned st h]

/-- With a poisoned mutex, a binding method fails with the lock error
and the engine is never invoked: the state is returned unchanged. -/
theorem withLock_poisoned (st : QueueFile) (h : st.poisoned = true)
    {α : Type} (f : EngineState → EngineState × Except QueueFileError α) :
    withLock st f = (st, .error .lockError) := by
  unfold withLock
  rw [h]
  rfl

/-- The three possible outcomes of the batch add: total success
appending the whole batch, or one of the two capacity failures leaving
the state untouched. -/
theorem addNE_cases (L : Limits) (s : EngineState) (items : List (List Nat)) :
    ((addNE L s items).2 = .ok () ∧
      (addNE L s items).1.elements = s.elements ++ items) ∨
    (((addNE L s items).2 = .error .elementTooBig ∨
        (addNE L s items).2 = .error .tooManyElements) ∧
      (addNE L s items).1 = s) := by
  unfold addNE
  split
  · right
    exact ⟨Or.inl rfl, rfl⟩
  · split
    · right
      exact ⟨Or.inr rfl, rfl⟩
    · left
      exact ⟨rfl, rfl⟩

/-- A binding `add` on a healthy handle succeeds when the payload and
the resulting count fit the format limits, appending the payload. -/
theorem add_success (L : Limits) (st : QueueFile) (p : List Nat)
    (h : st.poisoned = false) (hp : p.length ≤ L.maxElemSize)
    (hc : st.inner.elements.length + 1 ≤ L.maxElemCount) :
    QueueFile.add L st p =
      ({ st with inner := { st.inner with
          elements := st.inner.elements ++ [p]
          fileLength := growTo st.inner.fileLength
            (usedBytes st.inner + frameSize p) } },
        .ok ()) := by
  rw [QueueFile.add, withLock_not_poisoned st h]
  unfold addE
  rw [if_neg (by omega), if_neg (by omega)]


/-- Compact constructor for a plain engine state: sync-writes on,
overwrite-on-remove off, no offset cache. -/
def mkEngine (es : List (List Nat)) (len : Nat) : EngineState :=
  { elements := es
    fileLength := len
    syncWrites := true
    overwriteOnRemove := false
    cachePolicy := .none }

/-- Compact constructor for a binding handle. -/
def mkQF (b : Bool) (s : EngineState) : QueueFile :=
  { poisoned := b, inner := s }

/-! ### The claims -/

/-- C1: for every sequence of payloads written into an empty queue via
repeated `add`, reading them back via iterate (the `get_all` surface)
or via repeated peek-plus-remove returns exactly those payloads in
insertion order, byte-for-byte identical. -/
theorem C1_roundtrip (L : Limits) (ps : List (List Nat)) (s0 s : EngineState)
    (h0 : s0.elements = []) (h : addAll L s0 ps = .ok s) :
    (iterE s).2 = .ok ps ∧
    (QueueFile.get_all (mkQF false s)).2 = .ok ps ∧
    drain ps.length s = ps := by
  have he : s.elements = ps := by
    have h2 := addAll_elements L ps s0 s h
    rw [h0] at h2
    simpa using h2
  refine ⟨?_, ?_, ?_⟩
  · rw [iterE_eq, he]
  · rw [QueueFile.get_all, withLock_snd (mkQF false s) rfl]
    show (iterE s).2 = .ok ps
    rw [iterE_eq, he]
  · exact drain_eq ps s he

/-- Witness for C1 at the concrete batch [[1], [2, 3]]. -/
theorem C1_roundtrip_witness :
    (iterE (mkEngine [[1], [2, 3]] 64)).2 = .ok [[1], [2, 3]] ∧
    (QueueFile.get_all (mkQF false (mkEngine [[1], [2, 3]] 64))).2 = .ok [[1], [2, 3]] ∧
    drain 2 (mkEngine [[1], [2, 3]] 64) = [[1], [2, 3]] :=
  C1_roundtrip { maxElemSize := 100, maxElemCount := 100 } [[1], [2, 3]]
    (withCapacityE 0) (mkEngine [[1], [2, 3]] 64) rfl rfl

/-- C2: along any add/remove trace from an empty queue, the element
count equals the number of successful adds minus the number of
successful removes and never goes negative; the binding's `size()`
reports exactly this difference (the format count limit fits in u32);
and any `remove_n` with `n` larger than the current element count fails
with the empty-queue error and leaves the state unchanged. -/
theorem C2_size_accounting (L : Limits) (ops : List Op) (s0 : EngineState)
    (h0 : s0.elements = []) (hcap : L.maxElemCount < 2 ^ 32)
    (s : EngineState) (n : Nat) (hn : s.elements.length < n) :
    ((runOps L ops (s0, 0, 0)).1.elements.length =
        (runOps L ops (s0, 0, 0)).2.1 - (runOps L ops (s0, 0, 0)).2.2 ∧
      (runOps L ops (s0, 0, 0)).2.2 ≤ (runOps L ops (s0, 0, 0)).2.1 ∧
      (QueueFile.size (mkQF false (runOps L ops (s0, 0, 0)).1)).2 =
        .ok ((runOps L ops (s0, 0, 0)).2.1 - (runOps L ops (s0, 0, 0)).2.2)) ∧
    QueueFile.remove_n (mkQF false s) n =
      (mkQF false s, .error .emptyQueue) := by
  have inv := runOps_invariant L ops (s0, 0, 0)
    (by show s0.elements.length = 0 - 0; rw [h0]; rfl)
    (Nat.le_refl 0)
    (by show s0.elements.length ≤ L.maxElemCount; rw [h0]; exact Nat.zero_le _)
  refine ⟨⟨inv.1, inv.2.1, ?_⟩, ?_⟩
  · rw [QueueFile.size, withLock_snd (mkQF false (runOps L ops (s0, 0, 0)).1) rfl]
    show Except.ok ((runOps L ops (s0, 0, 0)).1.elements.length % 2 ^ 32) = _
    rw [Nat.mod_eq_of_lt (lt_of_le_of_lt inv.2.2 hcap), inv.1]
  · rw [QueueFile.remove_n, withLock_not_poisoned (mkQF false s) rfl]
    simp only [mkQF]
    rw [removeNE_overflow s n hn]

/-- Witness for C2 on the trace add [5]; remove; remove, and an
over-removal remove_n 1 from an empty queue. -/
theorem C2_size_accounting_witness :
    ((runOps { maxElemSize := 10, maxElemCount := 10 }
        [Op.add [5], Op.remove, Op.remove] (withCapacityE 0, 0, 0)).1.elements.length =
        (runOps { maxElemSize := 10, maxElemCount := 10 }
            [Op.add [5], Op.remove, Op.remove] (withCapacityE 0, 0, 0)).2.1 -
          (runOps { maxElemSize := 10, maxElemCount := 10 }
            [Op.add [5], Op.remove, Op.remove] (withCapacityE 0, 0, 0)).2.2 ∧
      (runOps { maxElemSize := 10, maxElemCount := 10 }
          [Op.add [5], Op.remove, Op.remove] (withCapacityE 0, 0, 0)).2.2 ≤
        (runOps { maxElemSize := 10, maxElemCount := 10 }
          [Op.add [5], Op.remove, Op.remove] (withCapacityE 0, 0, 0)).2.1 ∧
      (QueueFile.size (mkQF false (runOps { maxElemSize := 10, maxElemCount := 10 }
          [Op.add [5], Op.remove, Op.remove] (withCapacityE 0, 0, 0)).1)).2 =
        .ok ((runOps { maxElemSize := 10, maxElemCount := 10 }
            [Op.add [5], Op.remove, Op.remove] (withCapacityE 0, 0, 0)).2.1 -
          (runOps { maxElemSize := 10, maxElemCount := 10 }
            [Op.add [5], Op.remove, Op.remove] (withCapacityE 0, 0, 0)).2.2)) ∧
    QueueFile.remove_n (mkQF false (withCapacityE 0)) 1 =
      (mkQF false (withCapacityE 0), .error .emptyQueue) :=
  C2_size_accounting { maxElemSize := 10, maxElemCount := 10 }
    [Op.add [5], Op.remove, Op.remove] (withCapacityE 0) rfl (by decide)
    (withCapacityE 0) 1 (by decide)

/-- C3: `peek()` on a healthy handle never errors and never mutates:
it returns the head of the element sequence as an optional value, so an
empty queue yields the observable no-value result Ok(None) rather than
an error, and a non-empty queue yields Some of its oldest payload with
the state unchanged. -/
theorem C3_peek (st : QueueFile) (h : st.poisoned = false) :
    QueueFile.peek st = (st, .ok st.inner.elements.head?) := by
  rw [QueueFile.peek, withLock_not_poisoned st h, peekE_eq]

/-- Witness for C3 on an empty queue (Ok(None)) and on a two-element
queue (Some of the oldest payload, state untouched). -/
theorem C3_peek_witness :
    QueueFile.peek (mkQF false (withCapacityE 0)) =
      (mkQF false (withCapacityE 0), .ok none) ∧
    QueueFile.peek (mkQF false (mkEngine [[7], [8, 9]] 64)) =
      (mkQF false (mkEngine [[7], [8, 9]] 64), .ok (some [7])) :=
  ⟨C3_peek (mkQF false (withCapacityE 0)) rfl,
    C3_peek (mkQF false (mkEngine [[7], [8, 9]] 64)) rfl⟩

/-- C4: `add_multiple` is all-or-nothing — either the whole batch is
appended and the call succeeds, or it fails with ElementTooBig or
TooManyElements and the binding state (hence everything observable
through size, peek, get_all, file_len and used_bytes) is exactly the
state before the call. -/
theorem C4_add_multiple_atomic (L : Limits) (st : QueueFile)
    (items : List (List Nat)) (h : st.poisoned = false) :
    ((QueueFile.add_multiple L st items).2 = .ok () ∧
      (QueueFile.add_multiple L st items).1.inner.elements =
        st.inner.elements ++ items) ∨
    (((QueueFile.add_multiple L st items).2 = .error .elementTooBig ∨
        (QueueFile.add_multiple L st items).2 = .error .tooManyElements) ∧
      (QueueFile.add_multiple L st items).1 = st) := by
  rw [QueueFile.add_multiple, withLock_not_poisoned st h]
  rcases addNE_cases L st.inner items with ⟨hok, helems⟩ | ⟨herr, hst⟩
  · exact Or.inl ⟨hok, helems⟩
  · refine Or.inr ⟨herr, ?_⟩
    rw [hst]

/-- Witness for C4: a batch of two payloads on a fresh queue. -/
theorem C4_add_multiple_atomic_witness :
    ((QueueFile.add_multiple { maxElemSize := 10, maxElemCount := 10 }
        (mkQF false (withCapacityE 0)) [[1], [2]]).2 = .ok () ∧
      (QueueFile.add_multiple { maxElemSize := 10, maxElemCount := 10 }
          (mkQF false (withCapacityE 0)) [[1], [2]]).1.inner.elements =
        (withCapacityE 0).elements ++ [[1], [2]]) ∨
    (((QueueFile.add_multiple { maxElemSize := 10, maxElemCount := 10 }
          (mkQF false (withCapacityE 0)) [[1], [2]]).2 = .error .elementTooBig ∨
        (QueueFile.add_multiple { maxElemSize := 10, maxElemCount := 10 }
          (mkQF false (withCapacityE 0)) [[1], [2]]).2 = .error .tooManyElements) ∧
      (QueueFile.add_multiple { maxElemSize := 10, maxElemCount := 10 }
        (mkQF false (withCapacityE 0)) [[1], [2]]).1 = mkQF false (withCapacityE 0)) :=
  C4_add_multiple_atomic { maxElemSize := 10, maxElemCount := 10 }
    (mkQF false (withCapacityE 0)) [[1], [2]] rfl

/-- The C5 scenario: a freshly opened queue with capacity C. -/
def c5_st0 (C : Nat) : QueueFile := QueueFile.with_capacity C

/-- The C5 scenario after adding "a" (byte 97). -/
def c5_st1 (L : Limits) (C : Nat) : QueueFile :=
  (QueueFile.add L (c5_st0 C) [97]).1

/-- The C5 scenario after adding "bb" (bytes 98 98). -/
def c5_st2 (L : Limits) (C : Nat) : QueueFile :=
  (QueueFile.add L (c5_st1 L C) [98, 98]).1

/-- The C5 scenario after adding "ccc" (bytes 99 99 99). -/
def c5_st3 (L : Limits) (C : Nat) : QueueFile :=
  (QueueFile.add L (c5_st2 L C) [99, 99, 99]).1

/-- The C5 scenario after the first remove. -/
def c5_st4 (L : Limits) (C : Nat) : QueueFile :=
  (QueueFile.remove (c5_st3 L C)).1

/-- The C5 scenario after remove_n 2. -/
def c5_st5 (L : Limits) (C : Nat) : QueueFile :=
  (QueueFile.remove_n (c5_st4 L C) 2).1

/-- C5: on a freshly opened queue with any capacity C (format limits
admitting three short payloads), adding "a", "bb", "ccc" succeeds,
size() is 3 and peek() is "a"; after remove(), peek() is "bb";
remove_n 2 then succeeds, size() is 0 and peek() is the empty result
Ok(None), not an error. -/
theorem C5_scenario (L : Limits) (C : Nat)
    (hsize : 3 ≤ L.maxElemSize) (hcount : 3 ≤ L.maxElemCount) :
    (QueueFile.add L (c5_st0 C) [97]).2 = .ok () ∧
    (QueueFile.add L (c5_st1 L C) [98, 98]).2 = .ok () ∧
    (QueueFile.add L (c5_st2 L C) [99, 99, 99]).2 = .ok () ∧
    (QueueFile.size (c5_st3 L C)).2 = .ok 3 ∧
    (QueueFile.peek (c5_st3 L C)).2 = .ok (some [97]) ∧
    (QueueFile.remove (c5_st3 L C)).2 = .ok () ∧
    (QueueFile.peek (c5_st4 L C)).2 = .ok (some [98, 98]) ∧
    (QueueFile.remove_n (c5_st4 L C) 2).2 = .ok () ∧
    (QueueFile.size (c5_st5 L C)).2 = .ok 0 ∧
    (QueueFile.peek (c5_st5 L C)).2 = .ok none := by
  have e1 := add_success L (c5_st0 C) [97] rfl
    (by simp only [List.length_cons, List.length_nil]; omega)
    (by show ([] : List (List Nat)).length + 1 ≤ L.maxElemCount
        simp only [List.length_nil]; omega)
  have h1p : (c5_st1 L C).poisoned = false := by
    unfold c5_st1; rw [e1]; rfl
  have h1e : (c5_st1 L C).inner.elements = [[97]] := by
    unfold c5_st1; rw [e1]; rfl
  have e2 := add_success L (c5_st1 L C) [98, 98] h1p
    (by simp only [List.length_cons, List.length_nil]; omega)
    (by rw [h1e]; simp only [List.length_cons, List.length_nil]; omega)
  have h2p : (c5_st2 L C).poisoned = false := by
    unfold c5_st2; rw [e2]; exact h1p
  have h2e : (c5_st2 L C).inner.elements = [[97], [98, 98]] := by
    unfold c5_st2; rw [e2]
    show (c5_st1 L C).inner.elements ++ [[98, 98]] = _
    rw [h1e]
    rfl
  have e3 := add_success L (c5_st2 L C) [99, 99, 99] h2p
    (by simp only [List.length_cons, List.length_nil]; omega)
    (by rw [h2e]; simp only [List.length_cons, List.length_nil]; omega)
  have h3p : (c5_st3 L C).poisoned = false := by
    unfold c5_st3; rw [e3]; exact h2p
  have h3e : (c5_st3 L C).inner.elements = [[97], [98, 98], [99, 99, 99]] := by
    unfold c5_st3; rw [e3]
    show (c5_st2 L C).inner.elements ++ [[99, 99, 99]] = _
    rw [h2e]
    rfl
  have hre1 : removeNE (c5_st3 L C).inner 1 =
      ({ (c5_st3 L C).inner with
          elements := (c5_st3 L C).inner.elements.drop 1 }, .ok ()) :=
    removeNE_ok _ 1 (by rw [h3e]; decide)
  have h4p : (c5_st4 L C).poisoned = false := by
    unfold c5_st4
    rw [QueueFile.remove, withLock_not_poisoned (c5_st3 L C) h3p]
    exact h3p
  have h4e : (c5_st4 L C).inner.elements = [[98, 98], [99, 99, 99]] := by
    unfold c5_st4
    rw [QueueFile.remove, withLock_not_poisoned (c5_st3 L C) h3p]
    show (removeNE (c5_st3 L C).inner 1).1.elements = _
    rw [hre1]
    show (c5_st3 L C).inner.elements.drop 1 = _
    rw [h3e]
    rfl
  have hre2 : removeNE (c5_st4 L C).inner 2 =
      ({ (c5_st4 L C).inner with
          elements := (c5_st4 L C).inner.elements.drop 2 }, .ok ()) :=
    removeNE_ok _ 2 (by rw [h4e]; decide)
  have h5p : (c5_st5 L C).poisoned = false := by
    unfold c5_st5
    rw [QueueFile.remove_n, withLock_not_poisoned (c5_st4 L C) h4p]
    exact h4p
  have h5e : (c5_st5 L C).inner.elements = [] := by
    unfold c5_st5
    rw [QueueFile.remove_n, withLock_not_poisoned (c5_st4 L C) h4p]
    show (removeNE (c5_st4 L C).inner 2).1.elements = _
    rw [hre2]
    show (c5_st4 L C).inner.elements.drop 2 = _
    rw [h4e]
    rfl
  refine ⟨?_, ?_, ?_, ?_, ?_, ?_, ?_, ?_, ?_, ?_⟩
  · rw [e1]
  · rw [e2]
  · rw [e3]
  · rw [QueueFile.size, withLock_snd (c5_st3 L C) h3p]
    show Except.ok ((c5_st3 L C).inner.elements.length % 2 ^ 32) = _
    rw [h3e]
    rfl
  · rw [QueueFile.peek, withLock_snd (c5_st3 L C) h3p, peekE_eq]
    show Except.ok (c5_st3 L C).inner.elements.head? = _
    rw [h3e]
    rfl
  · rw [QueueFile.remove, withLock_snd (c5_st3 L C) h3p]
    show (removeNE (c5_st3 L C).inner 1).2 = _
    rw [hre1]
  · rw [QueueFile.peek, withLock_snd (c5_st4 L C) h4p, peekE_eq]
    show Except.ok (c5_st4 L C).inner.elements.head? = _
    rw [h4e]
    rfl
  · rw [QueueFile.remove_n, withLock_snd (c5_st4 L C) h4p]
    show (removeNE (c5_st4 L C).inner 2).2 = _
    rw [hre2]
  · rw [QueueFile.size, withLock_snd (c5_st5 L C) h5p]
    show Except.ok ((c5_st5 L C).inner.elements.length % 2 ^ 32) = _
    rw [h5e]
    rfl
  · rw [QueueFile.peek, withLock_snd (c5_st5 L C) h5p, peekE_eq]
    show Except.ok (c5_st5 L C).inner.elements.head? = _
    rw [h5e]
    rfl

/-- Witness for C5 at the tightest admissible format limits and
capacity 0. -/
theorem C5_scenario_witness :
    (QueueFile.add { maxElemSize := 3, maxElemCount := 3 } (c5_st0 0) [97]).2 =
      .ok () ∧
    (QueueFile.add { maxElemSize := 3, maxElemCount := 3 }
      (c5_st1 { maxElemSize := 3, maxElemCount := 3 } 0) [98, 98]).2 = .ok () ∧
    (QueueFile.add { maxElemSize := 3, maxElemCount := 3 }
      (c5_st2 { maxElemSize := 3, maxElemCount := 3 } 0) [99, 99, 99]).2 = .ok () ∧
    (QueueFile.size (c5_st3 { maxElemSize := 3, maxElemCount := 3 } 0)).2 = .ok 3 ∧
    (QueueFile.peek (c5_st3 { maxElemSize := 3, maxElemCount := 3 } 0)).2 =
      .ok (some [97]) ∧
    (QueueFile.remove (c5_st3 { maxElemSize := 3, maxElemCount := 3 } 0)).2 =
      .ok () ∧
    (QueueFile.peek (c5_st4 { maxElemSize := 3, maxElemCount := 3 } 0)).2 =
      .ok (some [98, 98]) ∧
    (QueueFile.remove_n (c5_st4 { maxElemSize := 3, maxElemCount := 3 } 0) 2).2 =
      .ok () ∧
    (QueueFile.size (c5_st5 { maxElemSize := 3, maxElemCount := 3 } 0)).2 = .ok 0 ∧
    (QueueFile.peek (c5_st5 { maxElemSize := 3, maxElemCount := 3 } 0)).2 =
      .ok none :=
  C5_scenario { maxElemSize := 3, maxElemCount := 3 } 0 (by decide) (by decide)

/-- C6: `clear()` always succeeds on a healthy handle, empties the
queue (so size() is 0, also when it was already empty), and never
increases file_len(): the file length is unchanged or reduced. -/
theorem C6_clear (st : QueueFile) (h : st.poisoned = false) :
    (QueueFile.clear st).2 = .ok () ∧
    (QueueFile.clear st).1.inner.elements = [] ∧
    (QueueFile.clear st).1.inner.fileLength ≤ st.inner.fileLength ∧
    (QueueFile.size (QueueFile.clear st).1).2 = .ok 0 := by
  have hc : QueueFile.clear st =
      ({ st with inner := { st.inner with
          elements := []
          fileLength := min st.inner.fileLength INITIAL_LENGTH } }, .ok ()) := by
    rw [QueueFile.clear, withLock_not_poisoned st h]
    rfl
  have he' : (QueueFile.clear st).1.inner.elements = [] := by
    rw [hc]
  have hp' : (QueueFile.clear st).1.poisoned = false := by
    rw [hc]
    exact h
  refine ⟨?_, he', ?_, ?_⟩
  · rw [hc]
  · rw [hc]
    exact Nat.min_le_left _ _
  · rw [QueueFile.size, withLock_snd ((QueueFile.clear st).1) hp']
    show Except.ok ((QueueFile.clear st).1.inner.elements.length % 2 ^ 32) =
      Except.ok 0
    rw [he']
    rfl

/-- Witness for C6 on a one-element queue with a grown file. -/
theorem C6_clear_witness :
    (QueueFile.clear (mkQF false (mkEngine [[1]] 8192))).2 = .ok () ∧
    (QueueFile.clear (mkQF false (mkEngine [[1]] 8192))).1.inner.elements = [] ∧
    (QueueFile.clear (mkQF false (mkEngine [[1]] 8192))).1.inner.fileLength ≤
      (mkEngine [[1]] 8192).fileLength ∧
    (QueueFile.size (QueueFile.clear (mkQF false (mkEngine [[1]] 8192))).1).2 =
      .ok 0 :=
  C6_clear (mkQF false (mkEngine [[1]] 8192)) rfl

/-- C7: the offset-cache policy never changes observable content: an
indexed lookup under any policy equals the lookup under the None
policy at every index, iterate and peek return identical payloads under
any policy, and switching the policy leaves all subsequently observed
payloads unchanged. -/
theorem C7_cache_equivalence (s : EngineState) (pol : OffsetCachePolicy) :
    (∀ i, lookupIdx { s with cachePolicy := pol } i =
      lookupIdx { s with cachePolicy := .none } i) ∧
    (iterE { s with cachePolicy := pol }).2 =
      (iterE { s with cachePolicy := .none }).2 ∧
    (peekE { s with cachePolicy := pol }).2 =
      (peekE { s with cachePolicy := .none }).2 ∧
    (iterE (setCachePolicyE s pol).1).2 = (iterE s).2 ∧
    (peekE (setCachePolicyE s pol).1).2 = (peekE s).2 := by
  refine ⟨fun i => ?_, ?_, ?_, ?_, ?_⟩
  · rw [lookupIdx_eq, lookupIdx_eq]
  · rw [iterE_eq, iterE_eq]
  · rw [peekE_eq, peekE_eq]
  · rw [iterE_eq, iterE_eq]
    rfl
  · rw [peekE_eq, peekE_eq]
    rfl

/-- C8: `get_all` does not mutate the observable queue state: the
handle it returns is the one it was given, every observation (size,
is_empty, file_len, used_bytes, peek, a second get_all) is unchanged,
and the produced finite sequence lists the payloads oldest to newest —
identical to what repeated peek-plus-remove would return. -/
theorem C8_get_all_frame (st : QueueFile) (h : st.poisoned = false) :
    (QueueFile.get_all st).1 = st ∧
    (QueueFile.get_all st).2 = .ok st.inner.elements ∧
    (QueueFile.get_all (QueueFile.get_all st).1).2 = (QueueFile.get_all st).2 ∧
    (QueueFile.size (QueueFile.get_all st).1).2 = (QueueFile.size st).2 ∧
    (QueueFile.is_empty (QueueFile.get_all st).1).2 = (QueueFile.is_empty st).2 ∧
    (QueueFile.file_len (QueueFile.get_all st).1).2 = (QueueFile.file_len st).2 ∧
    (QueueFile.used_bytes (QueueFile.get_all st).1).2 =
      (QueueFile.used_bytes st).2 ∧
    (QueueFile.peek (QueueFile.get_all st).1).2 = (QueueFile.peek st).2 ∧
    (QueueFile.get_all st).2 = .ok (drain st.inner.elements.length st.inner) := by
  have h1 : (QueueFile.get_all st).1 = st := by
    rw [QueueFile.get_all, withLock_not_poisoned st h, iterE_eq]
  have h2 : (QueueFile.get_all st).2 = .ok st.inner.elements := by
    rw [QueueFile.get_all, withLock_snd st h]
    show (iterE st.inner).2 = _
    rw [iterE_eq]
  refine ⟨h1, h2, ?_, ?_, ?_, ?_, ?_, ?_, ?_⟩
  · rw [h1]
  · rw [h1]
  · rw [h1]
  · rw [h1]
  · rw [h1]
  · rw [h1]
  · rw [h2, drain_eq st.inner.elements st.inner rfl]

/-- Witness for C8 on a two-element queue. -/
theorem C8_get_all_frame_witness :
    (QueueFile.get_all (mkQF false (mkEngine [[1], [2]] 64))).1 =
      mkQF false (mkEngine [[1], [2]] 64) ∧
    (QueueFile.get_all (mkQF false (mkEngine [[1], [2]] 64))).2 =
      .ok (mkEngine [[1], [2]] 64).elements ∧
    (QueueFile.get_all
        (QueueFile.get_all (mkQF false (mkEngine [[1], [2]] 64))).1).2 =
      (QueueFile.get_all (mkQF false (mkEngine [[1], [2]] 64))).2 ∧
    (QueueFile.size (QueueFile.get_all (mkQF false (mkEngine [[1], [2]] 64))).1).2 =
      (QueueFile.size (mkQF false (mkEngine [[1], [2]] 64))).2 ∧
    (QueueFile.is_empty
        (QueueFile.get_all (mkQF false (mkEngine [[1], [2]] 64))).1).2 =
      (QueueFile.is_empty (mkQF false (mkEngine [[1], [2]] 64))).2 ∧
    (QueueFile.file_len
        (QueueFile.get_all (mkQF false (mkEngine [[1], [2]] 64))).1).2 =
      (QueueFile.file_len (mkQF false (mkEngine [[1], [2]] 64))).2 ∧
    (QueueFile.used_bytes
        (QueueFile.get_all (mkQF false (mkEngine [[1], [2]] 64))).1).2 =
      (QueueFile.used_bytes (mkQF false (mkEngine [[1], [2]] 64))).2 ∧
    (QueueFile.peek (QueueFile.get_all (mkQF false (mkEngine [[1], [2]] 64))).1).2 =
      (QueueFile.peek (mkQF false (mkEngine [[1], [2]] 64))).2 ∧
    (QueueFile.get_all (mkQF false (mkEngine [[1], [2]] 64))).2 =
      .ok (drain (mkEngine [[1], [2]] 64).elements.length (mkEngine [[1], [2]] 64)) :=
  C8_get_all_frame (mkQF false (mkEngine [[1], [2]] 64)) rfl

/-- C9: every public binding method (constructors excepted) fails with
LockError exactly when acquiring the internal mutex fails (poisoned
lock); no engine operation is invoked, so the queue state it returns is
unchanged. -/
theorem C9_lock_error (L : Limits) (st : QueueFile) (h : st.poisoned = true)
    (data : List Nat) (items : List (List Nat)) (n : Nat) (v : Bool)
    (pol : OffsetCachePolicy) :
    QueueFile.add L st data = (st, .error .lockError) ∧
    QueueFile.add_multiple L st items = (st, .error .lockError) ∧
    QueueFile.peek st = (st, .error .lockError) ∧
    QueueFile.remove st = (st, .error .lockError) ∧
    QueueFile.remove_n st n = (st, .error .lockError) ∧
    QueueFile.clear st = (st, .error .lockError) ∧
    QueueFile.is_empty st = (st, .error .lockError) ∧
    QueueFile.size st = (st, .error .lockError) ∧
    QueueFile.file_len st = (st, .error .lockError) ∧
    QueueFile.used_bytes st = (st, .error .lockError) ∧
    QueueFile.get_all st = (st, .error .lockError) ∧
    QueueFile.sync_all st = (st, .error .lockError) ∧
    QueueFile.set_sync_writes st v = (st, .error .lockError) ∧
    QueueFile.sync_writes st = (st, .error .lockError) ∧
    QueueFile.set_overwrite_on_remove st v = (st, .error .lockError) ∧
    QueueFile.overwrite_on_remove st = (st, .error .lockError) ∧
    QueueFile.set_cache_offset_policy st pol = (st, .error .lockError) := by
  have hw : ∀ {α : Type} (f : EngineState → EngineState × Except QueueFileError α),
      withLock st f = (st, .error .lockError) := fun f => withLock_poisoned st h f
  exact ⟨hw _, hw _, hw _, hw _, hw _, hw _, hw _, hw _, hw _, hw _, hw _, hw _,
    hw _, hw _, hw _, hw _, hw _⟩

/-- Witness for C9 on a poisoned handle. -/
theorem C9_lock_error_witness :
    QueueFile.add { maxElemSize := 1, maxElemCount := 1 }
      (mkQF true (withCapacityE 0)) [0] =
      (mkQF true (withCapacityE 0), .error .lockError) ∧
    QueueFile.add_multiple { maxElemSize := 1, maxElemCount := 1 }
      (mkQF true (withCapacityE 0)) [] =
      (mkQF true (withCapacityE 0), .error .lockError) ∧
    QueueFile.peek (mkQF true (withCapacityE 0)) =
      (mkQF true (withCapacityE 0), .error .lockError) ∧
    QueueFile.remove (mkQF true (withCapacityE 0)) =
      (mkQF true (withCapacityE 0), .error .lockError) ∧
    QueueFile.remove_n (mkQF true (withCapacityE 0)) 0 =
      (mkQF true (withCapacityE 0), .error .lockError) ∧
    QueueFile.clear (mkQF true (withCapacityE 0)) =
      (mkQF true (withCapacityE 0), .error .lockError) ∧
    QueueFile.is_empty (mkQF true (withCapacityE 0)) =
      (mkQF true (withCapacityE 0), .error .lockError) ∧
    QueueFile.size (mkQF true (withCapacityE 0)) =
      (mkQF true (withCapacityE 0), .error .lockError) ∧
    QueueFile.file_len (mkQF true (withCapacityE 0)) =
      (mkQF true (withCapacityE 0), .error .lockError) ∧
    QueueFile.used_bytes (mkQF true (withCapacityE 0)) =
      (mkQF true (withCapacityE 0), .error .lockError) ∧
    QueueFile.get_all (mkQF true (withCapacityE 0)) =
      (mkQF true (withCapacityE 0), .error .lockError) ∧
    QueueFile.sync_all (mkQF true (withCapacityE 0)) =
      (mkQF true (withCapacityE 0), .error .lockError) ∧
    QueueFile.set_sync_writes (mkQF true (withCapacityE 0)) false =
      (mkQF true (withCapacityE 0), .error .lockError) ∧
    QueueFile.sync_writes (mkQF true (withCapacityE 0)) =
      (mkQF true (withCapacityE 0), .error .lockError) ∧
    QueueFile.set_overwrite_on_remove (mkQF true (withCapacityE 0)) false =
      (mkQF true (withCapacityE 0), .error .lockError) ∧
    QueueFile.overwrite_on_remove (mkQF true (withCapacityE 0)) =
      (mkQF true (withCapacityE 0), .error .lockError) ∧
    QueueFile.set_cache_offset_policy (mkQF true (withCapacityE 0)) .none =
      (mkQF true (withCapacityE 0), .error .lockError) :=
  C9_lock_error { maxElemSize := 1, maxElemCount := 1 }
    (mkQF true (withCapacityE 0)) rfl [0] [] 0 false .none

/-- C10: the error translation of the From impl is total, maps each
engine error to exactly the corresponding binding variant — preserving
the UnsupportedVersion detected/supported fields and the CorruptedFile
message, and reducing Io errors to their display string — and is
injective, so no engine error is dropped or merged into a different
category. -/
theorem C10_from_translation :
    (∀ source, fromEngineError (.io source) = .ioError source) ∧
    fromEngineError .elementTooBig = .elementTooBig ∧
    fromEngineError .tooManyElements = .tooManyElements ∧
    (∀ msg, fromEngineError (.corruptedFile msg) = .corruptedFile msg) ∧
    (∀ detected supported, fromEngineError (.unsupportedVersion detected supported) =
      .unsupportedVersion detected supported) ∧
    Function.Injective fromEngineError := by
  refine ⟨fun source => rfl, rfl, rfl, fun msg => rfl,
    fun detected supported => rfl, ?_⟩
  intro a b hab
  cases a <;> cases b <;> simp_all [fromEngineError]
